import Mathlib

/-!
Shallow embedding of the taskflow-backend service: the Mongoose User and
Task schemas (validators and setters), the JWT sign/verify operations, the
bcrypt password pipeline, the authentication middleware, and the auth and
task controllers.  Machine state (the MongoDB collections) is an explicit
record threaded through every operation; request time is an explicit
natural-number parameter (seconds).
-/

namespace TaskFlow

/-! Environment configuration (the .env values; the concrete strings are
arbitrary but the two JWT secrets are distinct, as the deployment requires). -/

def jwtAccessSecret : String := "access-secret"
def jwtRefreshSecret : String := "refresh-secret"

/-- JWT_ACCESS_EXPIRE = 15m, in seconds. -/
def jwtAccessExpire : Nat := 15 * 60

/-- JWT_REFRESH_EXPIRE = 30d, in seconds. -/
def jwtRefreshExpire : Nat := 30 * 24 * 60 * 60

/-! String helpers mirroring the JavaScript/Mongoose string setters
(trim, lowercase) and the .length accessor, defined over the character
list so that they evaluate on concrete inputs. -/

def isSpaceChar (c : Char) : Bool :=
  c = ' ' || c = '\t' || c = '\n' || c = '\r'

/-- Mongoose trim setter: strip whitespace from both ends. -/
def trimStr (s : String) : String :=
  String.mk (((s.data.dropWhile isSpaceChar).reverse.dropWhile isSpaceChar).reverse)

/-- Mongoose lowercase setter. -/
def lowerStr (s : String) : String :=
  String.mk (s.data.map Char.toLower)

/-- JavaScript string .length (code points; identical for the ASCII data here). -/
def strLen (s : String) : Nat := s.data.length

/-- The email schema applies both the trim and the lowercase setter before
validation and before storage, and Mongoose applies the same setters to
query filters. -/
def normalizeEmail (s : String) : String := lowerStr (trimStr s)

/-! Regular expressions, for the email match validator of the User schema.
The matcher is a Brzozowski-derivative engine deciding anchored full-string
match, the semantics of the ^...$ pattern in the source. -/

inductive Rx where
  | fail
  | eps
  | cls (p : Char → Bool)
  | alt (a b : Rx)
  | cat (a b : Rx)
  | star (a : Rx)

def Rx.nullable : Rx → Bool
  | .fail => false
  | .eps => true
  | .cls _ => false
  | .alt a b => a.nullable || b.nullable
  | .cat a b => a.nullable && b.nullable
  | .star _ => true

/-- Smart alternation (keeps derivative terms small; same language). -/
def Rx.altS : Rx → Rx → Rx
  | .fail, b => b
  | a, .fail => a
  | a, b => .alt a b

/-- Smart concatenation (keeps derivative terms small; same language). -/
def Rx.catS : Rx → Rx → Rx
  | .fail, _ => .fail
  | _, .fail => .fail
  | .eps, b => b
  | a, .eps => a
  | a, b => .cat a b

def Rx.deriv : Rx → Char → Rx
  | .fail, _ => .fail
  | .eps, _ => .fail
  | .cls p, c => if p c then .eps else .fail
  | .alt a b, c => Rx.altS (a.deriv c) (b.deriv c)
  | .cat a b, c =>
      if a.nullable then Rx.altS (Rx.catS (a.deriv c) b) (b.deriv c)
      else Rx.catS (a.deriv c) b
  | .star a, c => Rx.catS (a.deriv c) (.star a)

def Rx.matchList (r : Rx) : List Char → Bool
  | [] => r.nullable
  | c :: cs => (r.deriv c).matchList cs

def Rx.matchStr (r : Rx) (s : String) : Bool := r.matchList s.data

/-- One-or-more repetition. -/
def Rx.plus (r : Rx) : Rx := .cat r (.star r)

/-- Zero-or-one repetition. -/
def Rx.opt (r : Rx) : Rx := .alt r .eps

/-- The regex class backslash-w: letters, digits, underscore. -/
def wordCharRx : Rx := .cls (fun c => c.isAlphanum || c = '_')

/-- The class of a literal dot or dash. -/
def dotDashRx : Rx := .cls (fun c => c = '.' || c = '-')

/-- A word run optionally preceded by a single dot or dash separator. -/
def wordGroupRx : Rx := .cat (Rx.opt dotDashRx) (Rx.plus wordCharRx)

/-- A dot followed by two or three word characters (one TLD segment). -/
def tldSegRx : Rx :=
  .cat (.cls (fun c => c = '.')) (.cat wordCharRx (.cat wordCharRx (Rx.opt wordCharRx)))

/-- The email pattern of the User schema, anchored. -/
def emailPattern : Rx :=
  .cat (Rx.plus wordCharRx)
    (.cat (.star wordGroupRx)
      (.cat (.cls (fun c => c = '@'))
        (.cat (Rx.plus wordCharRx)
          (.cat (.star wordGroupRx) (Rx.plus tldSegRx)))))

/-! JWT model: a signed token carries the user id payload, the signing
secret, the issued-at time and the expiry instant.  Requests may also carry
strings that are not well-formed tokens at all. -/

structure JwtToken where
  userId : Nat
  secret : String
  iat : Nat
  exp : Nat
deriving DecidableEq, Repr

/-- jwt.sign with payload the user id and an expiresIn lifetime. -/
def jwtSign (userId : Nat) (secret : String) (now lifetime : Nat) : JwtToken :=
  { userId := userId, secret := secret, iat := now, exp := now + lifetime }

/-- A credential string presented by a client: either a well-formed signed
token or arbitrary junk that no verification accepts. -/
inductive Cred where
  | jwt (t : JwtToken)
  | junk (s : String)
deriving DecidableEq, Repr

/-- Failure modes of jwt.verify: JsonWebTokenError (malformed or bad
signature) and TokenExpiredError. -/
inductive JwtError where
  | malformed
  | expired
deriving DecidableEq, Repr

/-- jwt.verify: signature check first, then expiry, then the payload is
returned. -/
def jwtVerify (c : Cred) (secret : String) (now : Nat) : Except JwtError Nat :=
  match c with
  | .junk _ => .error .malformed
  | .jwt t =>
    if t.secret ≠ secret then .error .malformed
    else if t.exp ≤ now then .error .expired
    else .ok t.userId

/-! bcrypt model: the digest is represented abstractly by the generating
pair of salt and plaintext; compare re-hashes the candidate with the
stored salt and tests equality, exactly bcrypt.compare's contract.
One-wayness itself is outside the model; what the development uses is the
round-trip law and the dependence of the digest on the salt. -/

structure BcryptHash where
  salt : Nat
  digestOf : String
deriving DecidableEq, Repr

def bcryptHash (salt : Nat) (plain : String) : BcryptHash :=
  { salt := salt, digestOf := plain }

def bcryptCompare (entered : String) (h : BcryptHash) : Bool :=
  bcryptHash h.salt entered == h

/-! Data model: the persisted collections.  Identifiers are naturals
(opaque unique ids).  Dates are naturals (epoch seconds). -/

/-- A persisted user document (src/models/User.js).  The name and email
fields hold the values after the schema setters (trim; trim+lowercase). -/
structure User where
  id : Nat
  name : String
  email : String
  password : BcryptHash
  refreshToken : Option JwtToken
deriving DecidableEq, Repr

inductive TaskStatus where
  | todo
  | inProgress
  | done
deriving DecidableEq, Repr

inductive TaskPriority where
  | low
  | medium
  | high
deriving DecidableEq, Repr

/-- A persisted task document (src/models/Task.js). -/
structure Task where
  id : Nat
  title : String
  description : Option String
  status : TaskStatus
  priority : TaskPriority
  dueDate : Option Nat
  createdBy : Nat
  createdAt : Nat
deriving DecidableEq, Repr

/-- The database: both collections plus the id and salt supplies (the
salt supply models bcrypt.genSalt drawing fresh randomness per call). -/
structure DB where
  users : List User
  tasks : List Task
  nextUserId : Nat
  nextTaskId : Nat
  nextSalt : Nat
deriving DecidableEq, Repr

/-- Enum cast for the status path of the Task schema. -/
def parseStatus (s : String) : Option TaskStatus :=
  if s = "todo" then some .todo
  else if s = "in-progress" then some .inProgress
  else if s = "done" then some .done
  else none

/-- Enum cast for the priority path of the Task schema. -/
def parsePriority (s : String) : Option TaskPriority :=
  if s = "low" then some .low
  else if s = "medium" then some .medium
  else if s = "high" then some .high
  else none

/-! Store operations used by the controllers. -/

/-- User.findOne with an email filter; Mongoose applies the schema setters
(trim, lowercase) to the query value. -/
def findByEmail (db : DB) (e : String) : Option User :=
  db.users.find? (fun u => u.email == normalizeEmail e)

/-- User.findById. -/
def findById (db : DB) (uid : Nat) : Option User :=
  db.users.find? (fun u => u.id == uid)

/-- document.save on an existing user: replace the document with that id. -/
def saveUser (db : DB) (u : User) : DB :=
  { db with users := db.users.map (fun x => if x.id == u.id then u else x) }

/-- User.findByIdAndUpdate(uid, refreshToken := null): clears the stored
refresh token when the user exists, no-op otherwise. -/
def clearRefreshToken (db : DB) (uid : Nat) : DB :=
  { db with
    users := db.users.map fun u =>
      if u.id == uid then { u with refreshToken := none } else u }

/-- userSchema.methods.generateAccessToken. -/
def generateAccessToken (u : User) (now : Nat) : JwtToken :=
  jwtSign u.id jwtAccessSecret now jwtAccessExpire

/-- userSchema.methods.generateRefreshToken: signs a refresh token, stores
it on the user document (this.save) and returns it. -/
def generateRefreshToken (db : DB) (u : User) (now : Nat) : JwtToken × DB :=
  let t := jwtSign u.id jwtRefreshSecret now jwtRefreshExpire
  (t, saveUser db { u with refreshToken := some t })

/-- Validator of the name path: required, trimmed length in 2..50. -/
def validName (nt : String) : Bool :=
  2 ≤ strLen nt && strLen nt ≤ 50

/-- Validator of the task title path: required, trimmed length in 3..100. -/
def validTitle (tt : String) : Bool :=
  3 ≤ strLen tt && strLen tt ≤ 100

/-- Validator of the task description path: at most 500 characters. -/
def validDescription (d : Option String) : Bool :=
  match d with
  | none => true
  | some s => strLen s ≤ 500

/-- User.create: runs the schema setters and validators (name length,
email pattern on the normalized value, password minlength 6 on the
plaintext — validation precedes the pre-save hook), then the pre-save hook
hashes the password with a fresh salt; the unique index on email rejects a
duplicate.  Returns none when creation throws. -/
def userCreate (db : DB) (n e p : String) : Option (User × DB) :=
  let nt := trimStr n
  let et := normalizeEmail e
  if validName nt && Rx.matchStr emailPattern et && 6 ≤ strLen p
      && !(db.users.any (fun u => u.email == et)) then
    let u : User :=
      { id := db.nextUserId, name := nt, email := et,
        password := bcryptHash db.nextSalt p, refreshToken := none }
    some (u, { db with users := db.users ++ [u],
                       nextUserId := db.nextUserId + 1,
                       nextSalt := db.nextSalt + 1 })
  else none

/-! Response shapes.  Every JSON error body in the source is
success:false plus a message, so an error response is captured by its
status code and message. -/

structure ErrResp where
  status : Nat
  message : String
deriving DecidableEq, Repr

/-- The user projection returned by register, login, profile: id, name,
email and nothing else (no password, no refresh token). -/
structure UserView where
  id : Nat
  name : String
  email : String
deriving DecidableEq, Repr

/-- JavaScript truthiness test for an optional request-body string:
undefined and the empty string are falsy. -/
def falsy (o : Option String) : Bool :=
  o.isNone || o == some ""

/-! Auth controller (src/controllers/authController.js). -/

/-- Outcome of register and login: an error response, or a success status
with the user view, the access token of the body, and the refresh token
set as the httpOnly cookie. -/
inductive AuthResult where
  | err (e : ErrResp)
  | ok (status : Nat) (user : UserView) (accessToken : JwtToken) (cookie : JwtToken)
deriving DecidableEq, Repr

/-- POST /api/v1/auth/register. -/
def register (db : DB) (name email password : Option String) (now : Nat) :
    AuthResult × DB :=
  if falsy name || falsy email || falsy password then
    (.err ⟨400, "Please provide name, email, and password"⟩, db)
  else
    match findByEmail db (email.getD "") with
    | some _ => (.err ⟨400, "User with this email already exists"⟩, db)
    | none =>
      match userCreate db (name.getD "") (email.getD "") (password.getD "") with
      | none => (.err ⟨500, "Server error during registration"⟩, db)
      | some (u, db1) =>
        let accessToken := generateAccessToken u now
        let rt := generateRefreshToken db1 u now
        (.ok 201 ⟨u.id, u.name, u.email⟩ accessToken rt.1, rt.2)

/-- POST /api/v1/auth/login. -/
def login (db : DB) (email password : Option String) (now : Nat) :
    AuthResult × DB :=
  if falsy email || falsy password then
    (.err ⟨400, "Please provide email and password"⟩, db)
  else
    match findByEmail db (email.getD "") with
    | none => (.err ⟨401, "Invalid credentials"⟩, db)
    | some u =>
      if !(bcryptCompare (password.getD "") u.password) then
        (.err ⟨401, "Invalid credentials"⟩, db)
      else
        let accessToken := generateAccessToken u now
        let rt := generateRefreshToken db u now
        (.ok 200 ⟨u.id, u.name, u.email⟩ accessToken rt.1, rt.2)

/-- Underlying token of a stored credential, for the rotation-match
comparison (the stored field may be null, hence Option on the left of
the comparison below). -/
def Cred.asStored : Cred → Option JwtToken
  | .jwt t => some t
  | .junk _ => none

/-- Outcome of refresh: an error response, or 200 with the new access
token in the body and the new refresh token set as the cookie. -/
inductive RefreshResult where
  | err (e : ErrResp)
  | ok (accessToken : JwtToken) (cookie : JwtToken)
deriving DecidableEq, Repr

/-- POST /api/v1/auth/refresh.  The cookie argument is the refreshToken
cookie of the request, when present. -/
def refresh (db : DB) (cookie : Option Cred) (now : Nat) : RefreshResult × DB :=
  match cookie with
  | none => (.err ⟨401, "No refresh token provided"⟩, db)
  | some c =>
    match jwtVerify c jwtRefreshSecret now with
    | .error _ => (.err ⟨401, "Invalid or expired refresh token"⟩, db)
    | .ok uid =>
      match findById db uid with
      | none => (.err ⟨401, "User not found"⟩, db)
      | some u =>
        if u.refreshToken ≠ c.asStored then
          (.err ⟨401, "Invalid refresh token"⟩, db)
        else
          let newAccessToken := generateAccessToken u now
          let rt := generateRefreshToken db u now
          (.ok newAccessToken rt.1, rt.2)

/-- Outcome of logout: the response status and message, and whether the
clearCookie call for the refreshToken cookie was reached. -/
structure LogoutResult where
  status : Nat
  message : String
  cookieCleared : Bool
deriving DecidableEq, Repr

/-- POST /api/v1/auth/logout.  When a cookie is present the controller
calls jwt.verify inside its try block, so a cookie that fails verification
throws into the catch handler: 500, and the clearCookie line is never
reached. -/
def logout (db : DB) (cookie : Option Cred) (now : Nat) : LogoutResult × DB :=
  match cookie with
  | none =>
    ({ status := 200, message := "Logout successful", cookieCleared := true }, db)
  | some c =>
    match jwtVerify c jwtRefreshSecret now with
    | .error _ =>
      ({ status := 500, message := "Server error during logout",
         cookieCleared := false }, db)
    | .ok uid =>
      ({ status := 200, message := "Logout successful", cookieCleared := true },
       clearRefreshToken db uid)

/-- GET /api/v1/auth/profile response: status 200 with the view injected
by the middleware. -/
structure ProfileResp where
  status : Nat
  user : UserView
deriving DecidableEq, Repr

def getProfile (v : UserView) : ProfileResp := ⟨200, v⟩

/-! Authentication middleware (src/middlewares/authMiddleware.js). -/

/-- The authorization header of a request: absent, present but not of the
Bearer shape (fails the startsWith check), or a Bearer credential. -/
inductive AuthHeader where
  | missing
  | notBearer (s : String)
  | bearer (c : Cred)
deriving DecidableEq, Repr

inductive ProtectResult where
  | err (e : ErrResp)
  | ok (user : UserView)
deriving DecidableEq, Repr

/-- The protect middleware.  The state component of the result is the
database after the request: the middleware only reads it. -/
def protect (db : DB) (h : AuthHeader) (now : Nat) : ProtectResult × DB :=
  match h with
  | .missing => (.err ⟨401, "Access denied. No token provided."⟩, db)
  | .notBearer _ => (.err ⟨401, "Access denied. No token provided."⟩, db)
  | .bearer c =>
    match jwtVerify c jwtAccessSecret now with
    | .error .malformed => (.err ⟨401, "Invalid token. Please login again."⟩, db)
    | .error .expired =>
      (.err ⟨401, "Token expired. Please refresh your token or login again."⟩, db)
    | .ok uid =>
      match findById db uid with
      | none => (.err ⟨401, "User not found. Token is invalid."⟩, db)
      | some u => (.ok ⟨u.id, u.name, u.email⟩, db)

/-! Task controller (src/controllers/taskController.js).  Every handler
runs behind the protect middleware; the identity argument is the id of
the resolved user. -/

/-- The request body of create and update: each field optional
(undefined when absent). -/
structure TaskBody where
  title : Option String
  description : Option String
  status : Option String
  priority : Option String
  dueDate : Option Nat
deriving DecidableEq, Repr

/-- Status cast for create: default todo when the field is omitted. -/
def castStatus : Option String → Option TaskStatus
  | none => some .todo
  | some s => parseStatus s

/-- Priority cast for create: default medium when the field is omitted. -/
def castPriority : Option String → Option TaskPriority
  | none => some .medium
  | some s => parsePriority s

inductive CreateTaskResult where
  | err (e : ErrResp)
  | ok (status : Nat) (t : Task)
deriving DecidableEq, Repr

/-- CreateTaskResult status code of the error case, when there is one. -/
def CreateTaskResult.errStatus : CreateTaskResult → Option Nat
  | .err e => some e.status
  | .ok _ _ => none

/-- POST /api/v1/tasks.  A falsy title is answered 400 by the controller
itself; any Mongoose validation failure inside Task.create (title bounds,
description bound, enum casts) throws into the generic catch handler,
which answers 500. -/
def createTask (db : DB) (identity : Nat) (body : TaskBody) (now : Nat) :
    CreateTaskResult × DB :=
  if falsy body.title then
    (.err ⟨400, "Please provide a task title"⟩, db)
  else
    let tt := trimStr (body.title.getD "")
    let dt := body.description.map trimStr
    match castStatus body.status, castPriority body.priority with
    | some st, some pr =>
      if validTitle tt && validDescription dt then
        let t : Task :=
          { id := db.nextTaskId, title := tt, description := dt, status := st,
            priority := pr, dueDate := body.dueDate, createdBy := identity,
            createdAt := now }
        (.ok 201 t, { db with tasks := db.tasks ++ [t],
                              nextTaskId := db.nextTaskId + 1 })
      else (.err ⟨500, "Server error while creating task"⟩, db)
    | _, _ => (.err ⟨500, "Server error while creating task"⟩, db)

/-- Insertion into a list sorted by createdAt descending. -/
def insertDesc (t : Task) : List Task → List Task
  | [] => [t]
  | x :: xs => if x.createdAt ≤ t.createdAt then t :: x :: xs else x :: insertDesc t xs

/-- Sort by createdAt descending (the sort of Task.find). -/
def sortDesc : List Task → List Task
  | [] => []
  | x :: xs => insertDesc x (sortDesc xs)

/-- GET /api/v1/tasks response. -/
structure TaskListResp where
  status : Nat
  count : Nat
  tasks : List Task
deriving DecidableEq, Repr

/-- GET /api/v1/tasks: all tasks created by the requester, newest first. -/
def getTasks (db : DB) (identity : Nat) : TaskListResp :=
  let ts := sortDesc (db.tasks.filter (fun t => t.createdBy == identity))
  ⟨200, ts.length, ts⟩

inductive TaskResult where
  | err (e : ErrResp)
  | ok (status : Nat) (t : Task)
deriving DecidableEq, Repr

/-- Task.findOne with the id and createdBy filter used by get, update
and delete. -/
def findTaskOwned (db : DB) (id identity : Nat) : Option Task :=
  db.tasks.find? (fun t => t.id == id && t.createdBy == identity)

/-- GET /api/v1/tasks/:id. -/
def getTaskById (db : DB) (identity id : Nat) : TaskResult :=
  match findTaskOwned db id identity with
  | none => .err ⟨404, "Task not found"⟩
  | some t => .ok 200 t

/-- PUT /api/v1/tasks/:id: applies exactly the supplied fields, then
task.save revalidates; a validation failure (enum cast, title or
description bounds) throws into the catch handler, which answers 500
since the error is not a CastError on the id. -/
def updateTask (db : DB) (identity id : Nat) (body : TaskBody) :
    TaskResult × DB :=
  match findTaskOwned db id identity with
  | none => (.err ⟨404, "Task not found"⟩, db)
  | some t =>
    let newTitle := match body.title with | none => t.title | some v => trimStr v
    let newDesc :=
      match body.description with | none => t.description | some v => some (trimStr v)
    let newStatus := match body.status with | none => some t.status | some v => parseStatus v
    let newPriority :=
      match body.priority with | none => some t.priority | some v => parsePriority v
    let newDue := match body.dueDate with | none => t.dueDate | some v => some v
    match newStatus, newPriority with
    | some st, some pr =>
      if validTitle newTitle && validDescription newDesc then
        let t2 : Task :=
          { t with title := newTitle, description := newDesc, status := st,
                   priority := pr, dueDate := newDue }
        (.ok 200 t2,
         { db with tasks := db.tasks.map fun x => if x.id == t.id then t2 else x })
      else (.err ⟨500, "Server error while updating task"⟩, db)
    | _, _ => (.err ⟨500, "Server error while updating task"⟩, db)

/-- Removal of the first match, the effect of findOneAndDelete. -/
def removeFirst (p : Task → Bool) : List Task → List Task
  | [] => []
  | x :: xs => if p x then xs else x :: removeFirst p xs

/-- DELETE /api/v1/tasks/:id. -/
def deleteTask (db : DB) (identity id : Nat) : TaskResult × DB :=
  match findTaskOwned db id identity with
  | none => (.err ⟨404, "Task not found"⟩, db)
  | some t =>
    (.ok 200 t,
     { db with tasks := removeFirst (fun x => x.id == id && x.createdBy == identity) db.tasks })

/-! Concrete fixtures for evaluating the theorems on closed inputs. -/

/-- An empty store with fresh id and salt supplies. -/
def emptyDB : DB :=
  { users := [], tasks := [], nextUserId := 1, nextTaskId := 1, nextSalt := 7 }

/-- A user as stored right after a login at time 100: the refresh token
just issued is on the record. -/
def userFix : User :=
  { id := 1, name := "Jo Lee", email := "jo@example.com",
    password := bcryptHash 7 "secret1",
    refreshToken := some (jwtSign 1 jwtRefreshSecret 100 jwtRefreshExpire) }

def dbFix : DB :=
  { users := [userFix], tasks := [], nextUserId := 2, nextTaskId := 1, nextSalt := 8 }

/-- A task owned by user 1, for the ownership and update fixtures. -/
def taskFix : Task :=
  { id := 1, title := "Ship v1", description := none, status := .todo,
    priority := .medium, dueDate := none, createdBy := 1, createdAt := 50 }

def dbTasksFix : DB :=
  { users := [userFix], tasks := [taskFix], nextUserId := 2, nextTaskId := 2, nextSalt := 8 }

/-! Helper lemmas. -/

/-- find? by id over a map whose function preserves ids. -/
theorem find?_map_id_pres (f : User → User) (hf : ∀ x, (f x).id = x.id) (k : Nat) :
    ∀ l : List User,
      (l.map f).find? (fun x => x.id == k) = (l.find? (fun x => x.id == k)).map f
  | [] => by simp
  | y :: ys => by
    have hfy : ((f y).id == k) = (y.id == k) := by rw [hf]
    by_cases h : (y.id == k) = true
    · simp [List.find?_cons, h, hfy]
    · simp only [Bool.not_eq_true] at h
      simp [List.find?_cons, h, hfy, find?_map_id_pres f hf k ys]

/-- findById after saving a modified copy of the found user. -/
theorem findById_saveUser (db : DB) (u u' : User) (hid : u'.id = u.id)
    (h : findById db u.id = some u) :
    findById (saveUser db u') u.id = some u' := by
  have hf : ∀ x : User, ((fun x => if x.id == u'.id then u' else x) x).id = x.id := by
    intro x
    by_cases hx : (x.id == u'.id) = true
    · simp only [beq_iff_eq] at hx
      simp [hx]
    · simp [hx]
  unfold findById saveUser
  rw [find?_map_id_pres _ hf, show (db.users.find? fun x => x.id == u.id) = some u from h]
  simp [hid]

/-- findById after clearing a refresh token: the found document, with its
refresh token cleared when the ids coincide. -/
theorem findById_clearRefreshToken (db : DB) (uid k : Nat) :
    findById (clearRefreshToken db uid) k =
      (findById db k).map (fun u => if u.id == uid then { u with refreshToken := none } else u) := by
  have hf : ∀ x : User,
      ((fun u => if u.id == uid then { u with refreshToken := none } else u) x).id = x.id := by
    intro x
    by_cases hx : (x.id == uid) = true <;> simp [hx]
  unfold findById clearRefreshToken
  exact find?_map_id_pres _ hf k db.users

/-- The protect middleware never changes the store. -/
theorem protect_state_id (db : DB) (h : AuthHeader) (now : Nat) :
    (protect db h now).2 = db := by
  unfold protect
  cases h with
  | missing => rfl
  | notBearer s => rfl
  | bearer c =>
    cases hv : jwtVerify c jwtAccessSecret now with
    | error e => cases e <;> simp [hv]
    | ok uid =>
      cases hu : findById db uid <;> simp [hv, hu]

/-- Membership through descending insertion. -/
theorem mem_insertDesc {a t : Task} :
    ∀ {l : List Task}, a ∈ insertDesc t l ↔ a = t ∨ a ∈ l
  | [] => by simp [insertDesc]
  | x :: xs => by
    unfold insertDesc
    by_cases h : x.createdAt ≤ t.createdAt
    · simp [h]
    · rw [if_neg h]
      simp only [List.mem_cons, mem_insertDesc (l := xs)]
      tauto

/-- Membership through the descending sort. -/
theorem mem_sortDesc {a : Task} : ∀ {l : List Task}, a ∈ sortDesc l ↔ a ∈ l
  | [] => by simp [sortDesc]
  | x :: xs => by
    unfold sortDesc
    rw [mem_insertDesc]
    simp [mem_sortDesc (l := xs)]

/-- Inversion of a successful userCreate. -/
theorem userCreate_ok {db : DB} {n e p : String} {u : User} {db' : DB}
    (h : userCreate db n e p = some (u, db')) :
    u.id = db.nextUserId ∧ u.name = trimStr n ∧ u.email = normalizeEmail e ∧
    u.password = bcryptHash db.nextSalt p ∧ u.refreshToken = none ∧
    db'.users = db.users ++ [u] ∧ db'.nextSalt = db.nextSalt + 1 := by
  simp only [userCreate] at h
  split at h
  · simp only [Option.some.injEq, Prod.mk.injEq] at h
    obtain ⟨hu, hdb⟩ := h
    subst hu
    subst hdb
    simp
  · exact absurd h (by simp)

/-- Inversion of a successful register. -/
theorem register_ok {db : DB} {ne ee pe : Option String} {now : Nat}
    {st : Nat} {v : UserView} {a r : JwtToken} {db1 : DB}
    (h : register db ne ee pe now = (.ok st v a r, db1)) :
    ∃ u db', userCreate db (ne.getD "") (ee.getD "") (pe.getD "") = some (u, db') ∧
      st = 201 ∧ v = ⟨u.id, u.name, u.email⟩ ∧
      a = generateAccessToken u now ∧
      r = (generateRefreshToken db' u now).1 ∧
      db1 = (generateRefreshToken db' u now).2 := by
  unfold register at h
  split at h
  · exact absurd h (by simp)
  · split at h
    · exact absurd h (by simp)
    · split at h
      · exact absurd h (by simp)
      · rename_i u db' huc
        refine ⟨u, db', huc, ?_⟩
        simp only [Prod.mk.injEq, AuthResult.ok.injEq] at h
        obtain ⟨⟨h1, h2, h3, h4⟩, h5⟩ := h
        exact ⟨h1.symm, h2.symm, h3.symm, h4.symm, h5.symm⟩

/-! Claim theorems. -/

/-- Claim C1: refresh rotation is single-use.  For a user whose stored
refresh token is the token R1 issued at login time t0, a first refresh
with R1 at time t1 (within R1's lifetime, at a distinct timestamp, so
the rotated token is brand-new) succeeds, returns a fresh access token,
and overwrites the stored refresh token with the new token R2 ≠ R1; a
second refresh with R1 (still within its lifetime) then fails 401
"Invalid refresh token", because the verified token no longer matches
the stored one, and leaves the store unchanged. -/
theorem refresh_rotation_single_use
    (db : DB) (u : User) (t0 t1 t2 : Nat)
    (hfind : findById db u.id = some u)
    (hstored : u.refreshToken = some (jwtSign u.id jwtRefreshSecret t0 jwtRefreshExpire))
    (hne : t1 ≠ t0)
    (ht1 : t1 < t0 + jwtRefreshExpire)
    (ht2 : t2 < t0 + jwtRefreshExpire) :
    refresh db (some (.jwt (jwtSign u.id jwtRefreshSecret t0 jwtRefreshExpire))) t1 =
      (.ok (generateAccessToken u t1) (jwtSign u.id jwtRefreshSecret t1 jwtRefreshExpire),
        saveUser db { u with refreshToken := some (jwtSign u.id jwtRefreshSecret t1 jwtRefreshExpire) }) ∧
    jwtSign u.id jwtRefreshSecret t1 jwtRefreshExpire ≠
      jwtSign u.id jwtRefreshSecret t0 jwtRefreshExpire ∧
    findById (saveUser db { u with refreshToken := some (jwtSign u.id jwtRefreshSecret t1 jwtRefreshExpire) }) u.id =
      some { u with refreshToken := some (jwtSign u.id jwtRefreshSecret t1 jwtRefreshExpire) } ∧
    refresh (saveUser db { u with refreshToken := some (jwtSign u.id jwtRefreshSecret t1 jwtRefreshExpire) })
        (some (.jwt (jwtSign u.id jwtRefreshSecret t0 jwtRefreshExpire))) t2 =
      (.err ⟨401, "Invalid refresh token"⟩,
        saveUser db { u with refreshToken := some (jwtSign u.id jwtRefreshSecret t1 jwtRefreshExpire) }) := by
  have hver1 : jwtVerify (.jwt (jwtSign u.id jwtRefreshSecret t0 jwtRefreshExpire))
      jwtRefreshSecret t1 = .ok u.id := by
    simp only [jwtVerify, jwtSign]
    rw [if_neg (by simp), if_neg (by omega)]
  have hver2 : jwtVerify (.jwt (jwtSign u.id jwtRefreshSecret t0 jwtRefreshExpire))
      jwtRefreshSecret t2 = .ok u.id := by
    simp only [jwtVerify, jwtSign]
    rw [if_neg (by simp), if_neg (by omega)]
  have hneq : jwtSign u.id jwtRefreshSecret t1 jwtRefreshExpire ≠
      jwtSign u.id jwtRefreshSecret t0 jwtRefreshExpire := by
    simp only [jwtSign, ne_eq, JwtToken.mk.injEq]
    intro hcontra
    exact hne hcontra.2.2.1
  have hfind2 := findById_saveUser db u { u with refreshToken := some (jwtSign u.id jwtRefreshSecret t1 jwtRefreshExpire) } rfl hfind
  refine ⟨?_, hneq, hfind2, ?_⟩
  · simp [refresh, hver1, hfind, hstored, Cred.asStored, generateRefreshToken]
  · simp only [refresh, hver2, hfind2, Cred.asStored]
    rw [if_pos (by simp [hneq])]

/-- Witness for C1: the rotation scenario run on the concrete store, with
the login at time 100, the first refresh at 200, the second at 300. -/
theorem refresh_rotation_single_use_witness :
    refresh dbFix (some (.jwt (jwtSign userFix.id jwtRefreshSecret 100 jwtRefreshExpire))) 200 =
      (.ok (generateAccessToken userFix 200) (jwtSign userFix.id jwtRefreshSecret 200 jwtRefreshExpire),
        saveUser dbFix { userFix with refreshToken := some (jwtSign userFix.id jwtRefreshSecret 200 jwtRefreshExpire) }) ∧
    jwtSign userFix.id jwtRefreshSecret 200 jwtRefreshExpire ≠
      jwtSign userFix.id jwtRefreshSecret 100 jwtRefreshExpire ∧
    findById (saveUser dbFix { userFix with refreshToken := some (jwtSign userFix.id jwtRefreshSecret 200 jwtRefreshExpire) }) userFix.id =
      some { userFix with refreshToken := some (jwtSign userFix.id jwtRefreshSecret 200 jwtRefreshExpire) } ∧
    refresh (saveUser dbFix { userFix with refreshToken := some (jwtSign userFix.id jwtRefreshSecret 200 jwtRefreshExpire) })
        (some (.jwt (jwtSign userFix.id jwtRefreshSecret 100 jwtRefreshExpire))) 300 =
      (.err ⟨401, "Invalid refresh token"⟩,
        saveUser dbFix { userFix with refreshToken := some (jwtSign userFix.id jwtRefreshSecret 200 jwtRefreshExpire) }) :=
  refresh_rotation_single_use dbFix userFix 100 200 300 (by decide) (by decide)
    (by decide) (by decide) (by decide)

/-- Claim C2: ownership isolation.  For a task owned by user A, any
distinct requester B gets 404 "Task not found" — never a 403 — from get,
update and delete (which also leave the store unchanged), the task never
appears in B's list, and every task in B's list is owned by B: each
read/update/delete is filtered by owner = requester. -/
theorem ownership_isolation
    (db : DB) (t : Task) (A B : Nat) (body : TaskBody)
    (hmem : t ∈ db.tasks)
    (hA : t.createdBy = A)
    (hB : B ≠ A)
    (hwf : (db.tasks.map Task.id).Nodup) :
    getTaskById db B t.id = .err ⟨404, "Task not found"⟩ ∧
    updateTask db B t.id body = (.err ⟨404, "Task not found"⟩, db) ∧
    deleteTask db B t.id = (.err ⟨404, "Task not found"⟩, db) ∧
    t ∉ (getTasks db B).tasks ∧
    (getTasks db B).tasks.all (fun x => x.createdBy == B) = true := by
  have hnone : findTaskOwned db t.id B = none := by
    unfold findTaskOwned
    rw [List.find?_eq_none]
    intro x hx hpx
    simp only [Bool.and_eq_true, beq_iff_eq] at hpx
    have hxt : x = t := List.inj_on_of_nodup_map hwf hx hmem hpx.1
    rw [hxt] at hpx
    exact hB (hpx.2.symm.trans hA)
  have hmemlist : ∀ x : Task, x ∈ (getTasks db B).tasks → x.createdBy = B := by
    intro x hx
    simp only [getTasks] at hx
    rw [mem_sortDesc, List.mem_filter] at hx
    exact beq_iff_eq.mp hx.2
  refine ⟨?_, ?_, ?_, ?_, ?_⟩
  · simp [getTaskById, hnone]
  · simp [updateTask, hnone]
  · simp [deleteTask, hnone]
  · intro hcontra
    exact hB ((hmemlist t hcontra).symm.trans hA)
  · rw [List.all_eq_true]
    intro x hx
    exact beq_iff_eq.mpr (hmemlist x hx)

/-- Witness for C2: user 2 cannot see, update or delete user 1's task. -/
theorem ownership_isolation_witness :
    getTaskById dbTasksFix 2 taskFix.id = .err ⟨404, "Task not found"⟩ ∧
    updateTask dbTasksFix 2 taskFix.id ⟨some "X", none, none, none, none⟩ =
      (.err ⟨404, "Task not found"⟩, dbTasksFix) ∧
    deleteTask dbTasksFix 2 taskFix.id = (.err ⟨404, "Task not found"⟩, dbTasksFix) ∧
    taskFix ∉ (getTasks dbTasksFix 2).tasks ∧
    (getTasks dbTasksFix 2).tasks.all (fun x => x.createdBy == 2) = true :=
  ownership_isolation dbTasksFix taskFix 1 2 ⟨some "X", none, none, none, none⟩
    (by decide) (by decide) (by decide) (by decide)

/-- Claim C3: login failure indistinguishability.  A login for an email
matching no user and a login for an existing email with a wrong password
both answer exactly (401, "Invalid credentials") with the store
unchanged, so the two full failure responses are equal and login leaks
nothing about account existence; login with the correct password
succeeds with a 200, the user view and fresh tokens. -/
theorem login_failure_indistinguishable
    (db : DB) (e1 p1 e2 p2 pGood : String) (now1 now2 now3 : Nat) (u : User)
    (he1 : e1 ≠ "") (hp1 : p1 ≠ "")
    (he2 : e2 ≠ "") (hp2 : p2 ≠ "") (hpG : pGood ≠ "")
    (hnone : findByEmail db e1 = none)
    (hu : findByEmail db e2 = some u)
    (hwrong : bcryptCompare p2 u.password = false)
    (hright : bcryptCompare pGood u.password = true) :
    login db (some e1) (some p1) now1 = (.err ⟨401, "Invalid credentials"⟩, db) ∧
    login db (some e2) (some p2) now2 = (.err ⟨401, "Invalid credentials"⟩, db) ∧
    (login db (some e1) (some p1) now1).1 = (login db (some e2) (some p2) now2).1 ∧
    login db (some e2) (some pGood) now3 =
      (.ok 200 ⟨u.id, u.name, u.email⟩ (generateAccessToken u now3)
        (jwtSign u.id jwtRefreshSecret now3 jwtRefreshExpire),
        saveUser db { u with refreshToken := some (jwtSign u.id jwtRefreshSecret now3 jwtRefreshExpire) }) := by
  have h1 : login db (some e1) (some p1) now1 = (.err ⟨401, "Invalid credentials"⟩, db) := by
    simp [login, falsy, he1, hp1, hnone]
  have h2 : login db (some e2) (some p2) now2 = (.err ⟨401, "Invalid credentials"⟩, db) := by
    simp [login, falsy, he2, hp2, hu, hwrong]
  refine ⟨h1, h2, by rw [h1, h2], ?_⟩
  simp [login, falsy, he2, hpG, hu, hright, generateRefreshToken, jwtSign,
    generateAccessToken]

/-- Witness for C3: on the concrete store, the unknown-email failure and
the wrong-password failure coincide, and the correct password logs in. -/
theorem login_failure_indistinguishable_witness :
    login dbFix (some "nobody@x.com") (some "hunter2") 300 =
      (.err ⟨401, "Invalid credentials"⟩, dbFix) ∧
    login dbFix (some "jo@example.com") (some "secret2") 301 =
      (.err ⟨401, "Invalid credentials"⟩, dbFix) ∧
    (login dbFix (some "nobody@x.com") (some "hunter2") 300).1 =
      (login dbFix (some "jo@example.com") (some "secret2") 301).1 ∧
    login dbFix (some "jo@example.com") (some "secret1") 302 =
      (.ok 200 ⟨userFix.id, userFix.name, userFix.email⟩ (generateAccessToken userFix 302)
        (jwtSign userFix.id jwtRefreshSecret 302 jwtRefreshExpire),
        saveUser dbFix { userFix with refreshToken := some (jwtSign userFix.id jwtRefreshSecret 302 jwtRefreshExpire) }) :=
  login_failure_indistinguishable dbFix "nobody@x.com" "hunter2" "jo@example.com"
    "secret2" "secret1" 300 301 302 userFix (by decide) (by decide) (by decide)
    (by decide) (by decide) (by decide) (by decide) (by decide) (by decide)

/-- Clearing a refresh token twice equals clearing it once. -/
theorem clearRefreshToken_idem (db : DB) (uid : Nat) :
    clearRefreshToken (clearRefreshToken db uid) uid = clearRefreshToken db uid := by
  simp only [clearRefreshToken, List.map_map]
  congr 1
  apply List.map_congr_left
  intro x _
  by_cases h : (x.id == uid) = true
  · simp [Function.comp, h]
  · simp [Function.comp, h]

/-- Counterexample to claim C4: a logout whose cookie holds an
undecodable token does NOT report success — jwt.verify throws inside the
try block, the handler answers 500, and the clearCookie line is never
reached. -/
theorem logout_undecodable_cookie_not_success :
    logout dbFix (some (.junk "not-a-jwt")) 400 =
      ({ status := 500, message := "Server error during logout", cookieCleared := false }, dbFix) ∧
    (logout dbFix (some (.junk "not-a-jwt")) 400).1.status ≠ 200 ∧
    (logout dbFix (some (.junk "not-a-jwt")) 400).1.cookieCleared = false := by
  decide

/-- Claim C4, amended: logout with no cookie reports success and clears
the cookie without touching the store; logout with a cookie that
verifies reports success, clears the cookie and clears that user's
stored refresh token, and doing so again (the token now stale in the
store but still verifiable) again reports success — idempotent; but a
cookie whose token fails verification yields a 500 error response, does
not clear the cookie and does not change the store. -/
theorem logout_amended
    (db : DB) (now : Nat) (c cBad : Cred) (uid : Nat) (e : JwtError)
    (hok : jwtVerify c jwtRefreshSecret now = .ok uid)
    (hbad : jwtVerify cBad jwtRefreshSecret now = .error e) :
    logout db none now =
      ({ status := 200, message := "Logout successful", cookieCleared := true }, db) ∧
    logout db (some c) now =
      ({ status := 200, message := "Logout successful", cookieCleared := true },
        clearRefreshToken db uid) ∧
    logout (clearRefreshToken db uid) (some c) now =
      ({ status := 200, message := "Logout successful", cookieCleared := true },
        clearRefreshToken db uid) ∧
    logout db (some cBad) now =
      ({ status := 500, message := "Server error during logout", cookieCleared := false }, db) := by
  refine ⟨rfl, ?_, ?_, ?_⟩
  · simp [logout, hok]
  · simp [logout, hok, clearRefreshToken_idem]
  · simp [logout, hbad]

/-- Witness for the amended C4 on the concrete store: a verifiable
cookie, twice, and a junk cookie. -/
theorem logout_amended_witness :
    logout dbFix none 400 =
      ({ status := 200, message := "Logout successful", cookieCleared := true }, dbFix) ∧
    logout dbFix (some (.jwt (jwtSign 1 jwtRefreshSecret 100 jwtRefreshExpire))) 400 =
      ({ status := 200, message := "Logout successful", cookieCleared := true },
        clearRefreshToken dbFix 1) ∧
    logout (clearRefreshToken dbFix 1)
        (some (.jwt (jwtSign 1 jwtRefreshSecret 100 jwtRefreshExpire))) 400 =
      ({ status := 200, message := "Logout successful", cookieCleared := true },
        clearRefreshToken dbFix 1) ∧
    logout dbFix (some (.junk "zz")) 400 =
      ({ status := 500, message := "Server error during logout", cookieCleared := false }, dbFix) :=
  logout_amended dbFix 400 (.jwt (jwtSign 1 jwtRefreshSecret 100 jwtRefreshExpire))
    (.junk "zz") 1 .malformed (by rfl) (by rfl)

/-- Counterexample to claim C5: creating a task with the 2-character
title "ab" does NOT fail with status 400 — the Mongoose minlength
validator throws inside Task.create and the controller's generic catch
answers 500 "Server error while creating task". -/
theorem createTask_short_title_not_400 :
    createTask dbFix 1 ⟨some "ab", none, none, none, none⟩ 50 =
      (.err ⟨500, "Server error while creating task"⟩, dbFix) ∧
    (createTask dbFix 1 ⟨some "ab", none, none, none, none⟩ 50).1.errStatus = some 500 ∧
    (createTask dbFix 1 ⟨some "ab", none, none, none, none⟩ 50).1.errStatus ≠ some 400 := by
  decide

/-- Claim C5, amended: create fails 400 "Please provide a task title"
exactly when the title is absent or empty (falsy); a present title whose
trimmed length is outside the 3–100 bounds — in particular a 2-character
title — and a supplied status outside its enum both fail with status 500
(the schema validation error escapes to the generic handler), the store
unchanged in every failure case. -/
theorem createTask_validation_amended
    (db : DB) (identity now : Nat) (b1 b2 b3 : TaskBody) (s2 s3 v3 : String)
    (h1 : falsy b1.title = true)
    (h2t : b2.title = some s2) (h2ne : s2 ≠ "")
    (h2len : validTitle (trimStr s2) = false)
    (h2s : b2.status = none) (h2p : b2.priority = none)
    (h3t : b3.title = some s3) (h3ne : s3 ≠ "")
    (h3s : b3.status = some v3) (h3bad : parseStatus v3 = none) :
    createTask db identity b1 now = (.err ⟨400, "Please provide a task title"⟩, db) ∧
    createTask db identity b2 now = (.err ⟨500, "Server error while creating task"⟩, db) ∧
    createTask db identity b3 now = (.err ⟨500, "Server error while creating task"⟩, db) := by
  refine ⟨?_, ?_, ?_⟩
  · simp [createTask, h1]
  · simp [createTask, falsy, h2t, h2ne, h2s, h2p, castStatus, castPriority, h2len]
  · simp [createTask, falsy, h3t, h3ne, h3s, castStatus, h3bad]

/-- Witness for the amended C5: a missing title, the 2-character title
"ab", and a bogus status value, on the concrete store. -/
theorem createTask_validation_amended_witness :
    createTask dbFix 1 ⟨none, none, none, none, none⟩ 50 =
      (.err ⟨400, "Please provide a task title"⟩, dbFix) ∧
    createTask dbFix 1 ⟨some "ab", none, none, none, none⟩ 50 =
      (.err ⟨500, "Server error while creating task"⟩, dbFix) ∧
    createTask dbFix 1 ⟨some "Ship v1", none, some "bogus", none, none⟩ 50 =
      (.err ⟨500, "Server error while creating task"⟩, dbFix) :=
  createTask_validation_amended dbFix 1 50 ⟨none, none, none, none, none⟩
    ⟨some "ab", none, none, none, none⟩ ⟨some "Ship v1", none, some "bogus", none, none⟩
    "ab" "Ship v1" "bogus" (by decide) (by decide) (by decide) (by decide)
    (by decide) (by decide) (by decide) (by decide) (by decide) (by decide)

/-- Claim C6: duplicate-email rejection.  After any successful
registration, a second registration whose email normalizes (trim and
lowercase, so any casing) to the same stored value fails 400 "User with
this email already exists" and leaves the store unchanged — no second
user record is created. -/
theorem duplicate_email_rejected
    (db : DB) (ne ee pe : Option String) (now : Nat)
    (st : Nat) (v : UserView) (a r : JwtToken) (db1 : DB)
    (hreg : register db ne ee pe now = (.ok st v a r, db1))
    (n' e' p' : String) (now' : Nat)
    (hn' : n' ≠ "") (he' : e' ≠ "") (hp' : p' ≠ "")
    (hcase : normalizeEmail e' = normalizeEmail (ee.getD "")) :
    register db1 (some n') (some e') (some p') now' =
      (.err ⟨400, "User with this email already exists"⟩, db1) := by
  obtain ⟨u, db', huc, _, _, _, _, hdb1⟩ := register_ok hreg
  obtain ⟨_, _, hmail, _, _, husers, _⟩ := userCreate_ok huc
  have humem : u ∈ db'.users := by rw [husers]; simp
  have hx : ∃ x ∈ db1.users, (x.email == normalizeEmail e') = true := by
    subst hdb1
    simp only [generateRefreshToken, saveUser]
    refine ⟨_, List.mem_map_of_mem _ humem, ?_⟩
    simp [hmail, hcase]
  obtain ⟨x, hxmem, hxeq⟩ := hx
  have hfind : (findByEmail db1 e').isSome := by
    unfold findByEmail
    rw [List.find?_isSome]
    exact ⟨x, hxmem, hxeq⟩
  obtain ⟨w, hw⟩ := Option.isSome_iff_exists.mp hfind
  simp [register, falsy, hn', he', hp', hw]

/-- Witness for C6: register jo@example.com, then register again as
JO@example.com: rejected, store unchanged. -/
theorem duplicate_email_rejected_witness :
    register (register emptyDB (some "Jo Lee") (some "jo@example.com") (some "secret1") 100).2
        (some "Moe") (some "JO@example.com") (some "secret9") 200 =
      (.err ⟨400, "User with this email already exists"⟩,
        (register emptyDB (some "Jo Lee") (some "jo@example.com") (some "secret1") 100).2) :=
  duplicate_email_rejected emptyDB (some "Jo Lee") (some "jo@example.com") (some "secret1")
    100 201 ⟨1, "Jo Lee", "jo@example.com"⟩ (jwtSign 1 jwtAccessSecret 100 jwtAccessExpire)
    (jwtSign 1 jwtRefreshSecret 100 jwtRefreshExpire)
    (register emptyDB (some "Jo Lee") (some "jo@example.com") (some "secret1") 100).2
    (by decide) "Moe" "JO@example.com" "secret9" 200
    (by decide) (by decide) (by decide) (by decide)

/-- Claim C7: partial-update frame law.  Updating an owned task with a
body supplying only a (valid) status leaves title, description, priority
and dueDate unchanged — the result is exactly the old task with the new
status; and for ANY update body whatsoever, a successful update never
changes the owner field. -/
theorem update_status_frame
    (db : DB) (identity id : Nat) (t t2 : Task) (s : String) (st : TaskStatus)
    (body2 : TaskBody)
    (hfound : findTaskOwned db id identity = some t)
    (hs : parseStatus s = some st)
    (hvT : validTitle t.title = true)
    (hvD : validDescription t.description = true)
    (hupd2 : (updateTask db identity id body2).1 = .ok 200 t2) :
    (updateTask db identity id ⟨none, none, some s, none, none⟩).1 =
      .ok 200 { t with status := st } ∧
    ({ t with status := st } : Task).title = t.title ∧
    ({ t with status := st } : Task).description = t.description ∧
    ({ t with status := st } : Task).priority = t.priority ∧
    ({ t with status := st } : Task).dueDate = t.dueDate ∧
    t2.createdBy = t.createdBy := by
  refine ⟨?_, rfl, rfl, rfl, rfl, ?_⟩
  · simp [updateTask, hfound, hs, hvT, hvD]
  · simp only [updateTask, hfound] at hupd2
    split at hupd2
    · split at hupd2
      · simp only [TaskResult.ok.injEq] at hupd2
        rw [← hupd2.2]
      · exact absurd hupd2 (by simp)
    · exact absurd hupd2 (by simp)

/-- Witness for C7: updating only the status of the concrete task to
done keeps every other field. -/
theorem update_status_frame_witness :
    (updateTask dbTasksFix 1 1 ⟨none, none, some "done", none, none⟩).1 =
      .ok 200 { taskFix with status := .done } ∧
    ({ taskFix with status := TaskStatus.done } : Task).title = taskFix.title ∧
    ({ taskFix with status := TaskStatus.done } : Task).description = taskFix.description ∧
    ({ taskFix with status := TaskStatus.done } : Task).priority = taskFix.priority ∧
    ({ taskFix with status := TaskStatus.done } : Task).dueDate = taskFix.dueDate ∧
    ({ taskFix with status := TaskStatus.done } : Task).createdBy = taskFix.createdBy :=
  update_status_frame dbTasksFix 1 1 taskFix { taskFix with status := .done } "done"
    .done ⟨none, none, some "done", none, none⟩ (by decide) (by decide) (by decide)
    (by decide) (by decide)

/-- Claim C8: access-guard failure classification.  The protect
middleware answers 401 "Access denied. No token provided." when the
authorization header is absent or not of Bearer shape; 401 "Invalid
token. Please login again." when the token is junk or signed with the
wrong secret; 401 "Token expired. Please refresh your token or login
again." — a distinct response from the invalid-token one — when the
token is expired; 401 "User not found. Token is invalid." when the
verified id matches no user; and on success injects the resolved user
view.  In every case the store is unchanged. -/
theorem protect_guard_classification
    (db : DB) (now : Nat) (hdr g wSecret : String)
    (uidW iatW expW tExpUid tExpIat tExpExp iatOk expOk ghostUid ghostIat ghostExp : Nat)
    (u : User)
    (hW : wSecret ≠ jwtAccessSecret)
    (hExp : tExpExp ≤ now)
    (hOkExp : now < expOk)
    (hfind : findById db u.id = some u)
    (hGhostExp : now < ghostExp)
    (hghost : findById db ghostUid = none) :
    protect db .missing now = (.err ⟨401, "Access denied. No token provided."⟩, db) ∧
    protect db (.notBearer hdr) now = (.err ⟨401, "Access denied. No token provided."⟩, db) ∧
    protect db (.bearer (.junk g)) now = (.err ⟨401, "Invalid token. Please login again."⟩, db) ∧
    protect db (.bearer (.jwt ⟨uidW, wSecret, iatW, expW⟩)) now =
      (.err ⟨401, "Invalid token. Please login again."⟩, db) ∧
    protect db (.bearer (.jwt ⟨tExpUid, jwtAccessSecret, tExpIat, tExpExp⟩)) now =
      (.err ⟨401, "Token expired. Please refresh your token or login again."⟩, db) ∧
    (ErrResp.mk 401 "Token expired. Please refresh your token or login again." ≠
      ErrResp.mk 401 "Invalid token. Please login again.") ∧
    protect db (.bearer (.jwt ⟨ghostUid, jwtAccessSecret, ghostIat, ghostExp⟩)) now =
      (.err ⟨401, "User not found. Token is invalid."⟩, db) ∧
    protect db (.bearer (.jwt ⟨u.id, jwtAccessSecret, iatOk, expOk⟩)) now =
      (.ok ⟨u.id, u.name, u.email⟩, db) := by
  refine ⟨rfl, rfl, rfl, ?_, ?_, by simp, ?_, ?_⟩
  · simp [protect, jwtVerify, hW]
  · have hv : jwtVerify (.jwt ⟨tExpUid, jwtAccessSecret, tExpIat, tExpExp⟩)
        jwtAccessSecret now = .error .expired := by
      simp [jwtVerify, hExp]
    simp [protect, hv]
  · have hv : jwtVerify (.jwt ⟨ghostUid, jwtAccessSecret, ghostIat, ghostExp⟩)
        jwtAccessSecret now = .ok ghostUid := by
      simp only [jwtVerify]
      rw [if_neg (by simp), if_neg (by omega)]
    simp [protect, hv, hghost]
  · have hv : jwtVerify (.jwt ⟨u.id, jwtAccessSecret, iatOk, expOk⟩)
        jwtAccessSecret now = .ok u.id := by
      simp only [jwtVerify]
      rw [if_neg (by simp), if_neg (by omega)]
    simp [protect, hv, hfind]

/-- Witness for C8: all guard outcomes on the concrete store at time
200: missing header, plain header, junk token, wrong secret, expired
token, unknown user id, and a valid token for user 1. -/
theorem protect_guard_classification_witness :
    protect dbFix .missing 200 = (.err ⟨401, "Access denied. No token provided."⟩, dbFix) ∧
    protect dbFix (.notBearer "Basic abc") 200 =
      (.err ⟨401, "Access denied. No token provided."⟩, dbFix) ∧
    protect dbFix (.bearer (.junk "x")) 200 =
      (.err ⟨401, "Invalid token. Please login again."⟩, dbFix) ∧
    protect dbFix (.bearer (.jwt ⟨1, "other-secret", 100, 900⟩)) 200 =
      (.err ⟨401, "Invalid token. Please login again."⟩, dbFix) ∧
    protect dbFix (.bearer (.jwt ⟨1, jwtAccessSecret, 10, 200⟩)) 200 =
      (.err ⟨401, "Token expired. Please refresh your token or login again."⟩, dbFix) ∧
    (ErrResp.mk 401 "Token expired. Please refresh your token or login again." ≠
      ErrResp.mk 401 "Invalid token. Please login again.") ∧
    protect dbFix (.bearer (.jwt ⟨99, jwtAccessSecret, 100, 1000⟩)) 200 =
      (.err ⟨401, "User not found. Token is invalid."⟩, dbFix) ∧
    protect dbFix (.bearer (.jwt ⟨userFix.id, jwtAccessSecret, 100, 1000⟩)) 200 =
      (.ok ⟨userFix.id, userFix.name, userFix.email⟩, dbFix) :=
  protect_guard_classification dbFix 200 "Basic abc" "x" "other-secret"
    1 100 900 1 10 200 100 1000 99 100 1000 userFix
    (by decide) (by decide) (by decide) (by decide) (by decide) (by decide)

/-- Claim C9: password round-trip and confidentiality.  After any
successful registration with plaintext password P, the stored user
record holds the salted one-way bcrypt digest of P (an opaque
BcryptHash, not the plaintext string field); bcrypt-compare of P against
that stored digest succeeds; hashing P under any other salt yields a
different digest (the hash is salted); and the registration response and
the profile response expose only id, name and email — the UserView
carries no password field at all. -/
theorem password_roundtrip_confidential
    (db : DB) (ne ee pe : Option String) (now : Nat)
    (st : Nat) (v : UserView) (a r : JwtToken) (db1 : DB) (s' : Nat)
    (hreg : register db ne ee pe now = (.ok st v a r, db1))
    (hs' : s' ≠ db.nextSalt) :
    ∃ x ∈ db1.users,
      x.password = bcryptHash db.nextSalt (pe.getD "") ∧
      bcryptCompare (pe.getD "") x.password = true ∧
      bcryptHash s' (pe.getD "") ≠ x.password ∧
      v = ⟨x.id, x.name, x.email⟩ ∧
      getProfile v = ⟨200, ⟨x.id, x.name, x.email⟩⟩ := by
  obtain ⟨u, db', huc, _, hv, _, _, hdb1⟩ := register_ok hreg
  obtain ⟨_, _, _, hpass, _, husers, _⟩ := userCreate_ok huc
  have humem : u ∈ db'.users := by rw [husers]; simp
  subst hdb1
  simp only [generateRefreshToken, saveUser]
  refine ⟨_, List.mem_map_of_mem _ humem, ?_⟩
  simp only [beq_self_eq_true, if_pos]
  refine ⟨hpass, ?_, ?_, hv, ?_⟩
  · rw [hpass]
    simp [bcryptCompare, bcryptHash]
  · rw [hpass]
    simp only [bcryptHash, ne_eq, BcryptHash.mk.injEq, not_and]
    intro hcontra
    exact absurd hcontra hs'
  · rw [hv]
    rfl

/-- Witness for C9: the registration of jo@example.com stores the digest
of secret1 under the fresh salt 7, the compare round-trip holds, salt 8
yields a different digest, and the response view holds id, name, email
only. -/
theorem password_roundtrip_confidential_witness :
    ∃ x ∈ (register emptyDB (some "Jo Lee") (some "jo@example.com") (some "secret1") 100).2.users,
      x.password = bcryptHash emptyDB.nextSalt "secret1" ∧
      bcryptCompare "secret1" x.password = true ∧
      bcryptHash 8 "secret1" ≠ x.password ∧
      (UserView.mk 1 "Jo Lee" "jo@example.com") = ⟨x.id, x.name, x.email⟩ ∧
      getProfile (UserView.mk 1 "Jo Lee" "jo@example.com") = ⟨200, ⟨x.id, x.name, x.email⟩⟩ :=
  password_roundtrip_confidential emptyDB (some "Jo Lee") (some "jo@example.com")
    (some "secret1") 100 201 ⟨1, "Jo Lee", "jo@example.com"⟩
    (jwtSign 1 jwtAccessSecret 100 jwtAccessExpire)
    (jwtSign 1 jwtRefreshSecret 100 jwtRefreshExpire)
    (register emptyDB (some "Jo Lee") (some "jo@example.com") (some "secret1") 100).2
    8 (by decide) (by decide)

/-- Claim C10: logout does not revoke outstanding access tokens.  If the
guard accepts a bearer credential before a logout, it still accepts the
very same credential, resolving the same user view, after ANY logout
request (whatever cookie it carried); the guard's outcome is unchanged by
clearing any user's stored refresh token, for every header — it checks
only signature, expiry and user existence, never the stored refresh
token; and the task list of every user is untouched by logout, so task
operations and getProfile keep working until the token expires. -/
theorem logout_no_access_revocation
    (db : DB) (now nowL : Nat) (c : Cred) (v : UserView) (cookie : Option Cred)
    (uid identity : Nat) (hdr : AuthHeader)
    (hprot : protect db (.bearer c) now = (.ok v, db)) :
    protect (logout db cookie nowL).2 (.bearer c) now = (.ok v, (logout db cookie nowL).2) ∧
    (protect (clearRefreshToken db uid) hdr now).1 = (protect db hdr now).1 ∧
    getTasks (logout db cookie nowL).2 identity = getTasks db identity ∧
    getProfile v = ⟨200, v⟩ := by
  have hni : ∀ (k : Nat) (h : AuthHeader),
      (protect (clearRefreshToken db k) h now).1 = (protect db h now).1 := by
    intro k h
    cases h with
    | missing => rfl
    | notBearer s => rfl
    | bearer c' =>
      cases hv : jwtVerify c' jwtAccessSecret now with
      | error e => cases e <;> simp [protect, hv]
      | ok w =>
        simp only [protect, hv]
        rw [findById_clearRefreshToken]
        cases hu : findById db w with
        | none => simp
        | some u' =>
          by_cases hid : u'.id = k
          · simp [hid]
          · simp [hid]
  have hlog : (logout db cookie nowL).2 = db ∨
      ∃ k, (logout db cookie nowL).2 = clearRefreshToken db k := by
    cases cookie with
    | none => exact Or.inl rfl
    | some c' =>
      cases hv : jwtVerify c' jwtRefreshSecret nowL with
      | error e => exact Or.inl (by simp [logout, hv])
      | ok k => exact Or.inr ⟨k, by simp [logout, hv]⟩
  have h1 : (protect (logout db cookie nowL).2 (.bearer c) now).1 = .ok v := by
    rcases hlog with hsame | ⟨k, hclear⟩
    · rw [hsame]
      exact congrArg Prod.fst hprot
    · rw [hclear, hni k]
      exact congrArg Prod.fst hprot
  have htasks : (logout db cookie nowL).2.tasks = db.tasks := by
    rcases hlog with hsame | ⟨k, hclear⟩
    · rw [hsame]
    · simp [hclear, clearRefreshToken]
  refine ⟨?_, hni uid hdr, ?_, rfl⟩
  · have h2 := protect_state_id (logout db cookie nowL).2 (.bearer c) now
    calc protect (logout db cookie nowL).2 (.bearer c) now
        = ((protect (logout db cookie nowL).2 (.bearer c) now).1,
           (protect (logout db cookie nowL).2 (.bearer c) now).2) := rfl
      _ = (.ok v, (logout db cookie nowL).2) := by rw [h1, h2]
  · simp [getTasks, htasks]

/-- Witness for C10: on the concrete store, the access token accepted at
time 200 is still accepted, with the same resolved view, after user 1
logs out with the valid refresh cookie. -/
theorem logout_no_access_revocation_witness :
    protect (logout dbFix (some (.jwt (jwtSign 1 jwtRefreshSecret 100 jwtRefreshExpire))) 150).2
        (.bearer (.jwt (jwtSign 1 jwtAccessSecret 100 jwtAccessExpire))) 200 =
      (.ok ⟨userFix.id, userFix.name, userFix.email⟩,
        (logout dbFix (some (.jwt (jwtSign 1 jwtRefreshSecret 100 jwtRefreshExpire))) 150).2) ∧
    (protect (clearRefreshToken dbFix 1)
        (.bearer (.jwt (jwtSign 1 jwtAccessSecret 100 jwtAccessExpire))) 200).1 =
      (protect dbFix (.bearer (.jwt (jwtSign 1 jwtAccessSecret 100 jwtAccessExpire))) 200).1 ∧
    getTasks (logout dbFix (some (.jwt (jwtSign 1 jwtRefreshSecret 100 jwtRefreshExpire))) 150).2 1 =
      getTasks dbFix 1 ∧
    getProfile ⟨userFix.id, userFix.name, userFix.email⟩ =
      ⟨200, ⟨userFix.id, userFix.name, userFix.email⟩⟩ :=
  logout_no_access_revocation dbFix 200 150
    (.jwt (jwtSign 1 jwtAccessSecret 100 jwtAccessExpire))
    ⟨userFix.id, userFix.name, userFix.email⟩
    (some (.jwt (jwtSign 1 jwtRefreshSecret 100 jwtRefreshExpire))) 1 1
    (.bearer (.jwt (jwtSign 1 jwtAccessSecret 100 jwtAccessExpire))) (by decide)

end TaskFlow
